import Mathlib

/-!
Verification of the Migration & Comparison Engine of the
dnsscience-coredns-manager repository.

The engine itself (the Python package `dnsscience.core`) is not shipped in
this source tree; only its documentation, dashboard and workflow-node callers
are.  The comparator, confidence scorer, shadow sampler, configuration
parser/generator pair and migration planner below are therefore modelled
from the specification (each such definition says so in its doc comment).
The record-type option lists and the dashboard recommendation classifier are
embedded directly from the TypeScript sources present in the repository.
-/

namespace DnsScience

/-! ## Record & Response model (spec section 3) -/

/-- Modelled from the spec: response codes of a DNS answer.  Sections 3 lists
NOERROR, NXDOMAIN, SERVFAIL, REFUSED for resolver responses; section 4.4 adds
the synthetic "ERROR" code produced only for a transport failure after the
retry budget is exhausted. -/
inductive Rcode where
  | NOERROR
  | NXDOMAIN
  | SERVFAIL
  | REFUSED
  | ERROR
deriving DecidableEq, Repr

/-- Modelled from the spec: a DNS record `{name, type, ttl, data}` (section 3).
`type` is a Lean keyword, so the field is called `rtype`. -/
structure DnsRecord where
  name : String
  rtype : String
  ttl : Nat
  rdata : String
deriving DecidableEq, Repr

/-- Modelled from the spec: a Response `{rcode, records, query_time}`
(section 3); `query_time` in milliseconds. -/
structure Response where
  rcode : Rcode
  records : List DnsRecord
  query_time : Int
deriving DecidableEq, Repr

/-- Modelled from the spec: comparison options `ignore_ttl` and
`ignore_order` (sections 4.4 and 6). -/
structure CompareOptions where
  ignore_ttl : Bool
  ignore_order : Bool
deriving DecidableEq, Repr

/-- Modelled from the spec: the Difference enumeration of section 3. -/
inductive Difference where
  | rcodeMismatch (src tgt : Rcode)
  | missingRecord (r : DnsRecord)
  | extraRecord (r : DnsRecord)
  | dataMismatch (src tgt : DnsRecord)
  | ttlMismatch (src tgt : DnsRecord)
  | orderMismatch (src tgt : DnsRecord)
deriving DecidableEq, Repr

/-- The comparison key of a record under the active tolerance options:
structural equality with TTL excluded when `ignore_ttl` is set
(spec section 3: "Equality is structural but TTL ... can be excluded"). -/
def recordKey (opts : CompareOptions) (r : DnsRecord) :
    String × String × String × Option Nat :=
  (r.name, r.rtype, r.rdata, if opts.ignore_ttl then none else some r.ttl)

/-- Two records agree under the active tolerance options. -/
def recMatches (opts : CompareOptions) (r s : DnsRecord) : Bool :=
  decide (recordKey opts r = recordKey opts s)

/-- Classify a positional disagreement: a TTL-only difference yields a
`ttlMismatch`, anything else a `dataMismatch`. -/
def classifyDiff (s t : DnsRecord) : Difference :=
  if s.name = t.name ∧ s.rtype = t.rtype ∧ s.rdata = t.rdata then
    .ttlMismatch s t
  else
    .dataMismatch s t

/-- Modelled from the spec: the position-for-position diff used when
`options.ignore_order` is unset (section 4.4). -/
def diffOrdered (opts : CompareOptions) :
    List DnsRecord → List DnsRecord → List Difference
  | [], ts => ts.map .extraRecord
  | s :: ss, [] => .missingRecord s :: diffOrdered opts ss []
  | s :: ss, t :: ts =>
      (if recMatches opts s t then [] else [classifyDiff s t]) ++
        diffOrdered opts ss ts

/-- Remove the first record of the list matching `r` under the options,
returning `none` when no record matches. -/
def removeFirst (opts : CompareOptions) (r : DnsRecord) :
    List DnsRecord → Option (List DnsRecord)
  | [] => none
  | t :: ts =>
      if recMatches opts r t then some ts
      else (removeFirst opts r ts).map (t :: ·)

/-- Modelled from the spec: the multiset diff used when
`options.ignore_order` is set — both sides compared for membership with
duplicate records required to match duplicate counts (section 4.4). -/
def diffUnordered (opts : CompareOptions) :
    List DnsRecord → List DnsRecord → List Difference
  | [], ts => ts.map .extraRecord
  | s :: ss, ts =>
      match removeFirst opts s ts with
      | some ts' => diffUnordered opts ss ts'
      | none => .missingRecord s :: diffUnordered opts ss ts

/-- Modelled from the spec: the record diff under the active tolerance
options (section 4.4). -/
def diffRecords (opts : CompareOptions) (src tgt : List DnsRecord) :
    List Difference :=
  if opts.ignore_order then diffUnordered opts src tgt
  else diffOrdered opts src tgt

/-- Modelled from the spec: the query of a comparison `{name, type}`. -/
structure Query where
  name : String
  rtype : String
deriving DecidableEq, Repr

/-- Modelled from the spec: a Comparison Result (section 3).  The `match`
field is called `matched` because `match` is a Lean keyword. -/
structure ComparisonResult where
  query : Query
  source_response : Response
  target_response : Response
  matched : Bool
  timing_diff : Int
  differences : List Difference
deriving DecidableEq, Repr

/-- Modelled from the spec: build a Comparison Result from the two
responses of one comparison; `match` is true iff the rcodes are equal and
the record comparison yields zero Differences, `timing_diff` is
`target.query_time - source.query_time`, signed (section 4.4). -/
def mkResult (opts : CompareOptions) (q : Query) (src tgt : Response) :
    ComparisonResult :=
  let rdiff := diffRecords opts src.records tgt.records
  { query := q
    source_response := src
    target_response := tgt
    matched := decide (src.rcode = tgt.rcode) && rdiff.isEmpty
    timing_diff := tgt.query_time - src.query_time
    differences :=
      (if src.rcode = tgt.rcode then [] else
        [.rcodeMismatch src.rcode tgt.rcode]) ++ rdiff }

/-! ## Transport failures and the retry budget (spec section 4.4) -/

/-- Modelled from the spec: the outcome of querying one resolver endpoint,
either a received Response or a transport-level failure after the retry
budget is exhausted. -/
inductive QueryOutcome where
  | success (resp : Response)
  | transportFail
deriving DecidableEq, Repr

/-- Modelled from the spec: one side of a comparison as a Response; a
transport failure becomes `rcode = "ERROR"` with no records
(section 4.4). -/
def outcomeToResponse (qt : Int) : QueryOutcome → Response
  | .success r => r
  | .transportFail => { rcode := .ERROR, records := [], query_time := qt }

/-- Modelled from the spec: attempt a query with a fixed retry budget;
`att n` is the response received on attempt `n` (`none` standing for a
transport-level failure of that attempt).  The first successful attempt
wins; when every attempt up to the budget fails the outcome is a
transport failure (section 4.4). -/
def attemptQuery : Nat → (Nat → Option Response) → QueryOutcome
  | 0, att =>
      match att 0 with
      | some r => .success r
      | none => .transportFail
  | n + 1, att =>
      match att 0 with
      | some r => .success r
      | none => attemptQuery n (fun i => att (i + 1))

/-- Modelled from the spec: a resolver endpoint, observed through the
responses of its successive attempts at each query. -/
structure Resolver where
  attempts : Query → Nat → Option Response

/-- Query one resolver under the retry budget. -/
def Resolver.runQuery (r : Resolver) (budget : Nat) (q : Query) :
    QueryOutcome :=
  attemptQuery budget (r.attempts q)

/-- Modelled from the spec: `compare(domain, type, options)` — issue one
query to each of the two configured resolver endpoints (with the retry
budget) and diff the two sides (section 4.4).  A side that failed at the
transport level enters the result as an `rcode = ERROR` Response. -/
def compare (opts : CompareOptions) (budget : Nat) (source target : Resolver)
    (q : Query) : ComparisonResult :=
  mkResult opts q
    (outcomeToResponse 0 (source.runQuery budget q))
    (outcomeToResponse 0 (target.runQuery budget q))

/-! ## Confidence Scorer (spec section 4.5) -/

/-- Modelled from the spec: a Bulk Report (section 3). -/
structure BulkReport where
  results : List ComparisonResult
  tested : Nat
  «matches» : Nat
  mismatches : Nat
  errors : Nat
  confidence_score : ℚ
deriving Repr

/-- The empty Bulk Report; its confidence score is 0, never a vacuous 1
(spec section 4.5). -/
def emptyReport : BulkReport :=
  { results := [], tested := 0, «matches» := 0, mismatches := 0, errors := 0
    confidence_score := 0 }

/-- A comparison suffered a transport error on at least one side. -/
def isErrorResult (c : ComparisonResult) : Bool :=
  c.source_response.rcode == .ERROR || c.target_response.rcode == .ERROR

/-- Modelled from the spec: fold one Comparison Result into a Bulk Report,
updating the counts incrementally and recomputing the confidence score
over the cumulative counts (sections 4.5 and 4.6).  Errored queries count
toward `mismatches` (they are never `matched`) and additionally increment
the distinct `errors` counter (section 7). -/
def foldResult (r : BulkReport) (c : ComparisonResult) : BulkReport :=
  let tested := r.tested + 1
  let m := r.«matches» + (if c.matched then 1 else 0)
  { results := r.results ++ [c]
    tested := tested
    «matches» := m
    mismatches := r.mismatches + (if c.matched then 0 else 1)
    errors := r.errors + (if isErrorResult c then 1 else 0)
    confidence_score := if tested = 0 then 0 else (m : ℚ) / tested }

/-- Modelled from the spec: pure aggregation of a sequence of Comparison
Results into a Bulk Report (section 4.5). -/
def aggregate (cs : List ComparisonResult) : BulkReport :=
  cs.foldl foldResult emptyReport

/-- Modelled from the spec: the confidence score as a pure function of the
counts — `matches / tested`, with `tested = 0` defined as score 0
(section 4.5). -/
def confidenceScore (m tested : Nat) : ℚ :=
  if tested = 0 then 0 else (m : ℚ) / tested

/-- Modelled from the spec: the threshold-based recommendation — "safe to
proceed" iff `confidence_score ≥ threshold`, otherwise "not recommended"
(section 4.5). -/
def recommend (threshold score : ℚ) : String :=
  if score ≥ threshold then "safe to proceed" else "not recommended"

/-- Modelled from the spec: the default recommendation threshold 0.99
(section 4.5). -/
def defaultThreshold : ℚ := 99 / 100

/-- Modelled from the spec: the recommendation together with the exact
score, which is always reported alongside it (section 4.5). -/
def recommendWithScore (threshold score : ℚ) : String × ℚ :=
  (recommend threshold score, score)

/-! ## Shadow Session Manager (spec section 4.6) -/

/-- Modelled from the spec: lifecycle states of a Shadow Session
(section 3). -/
inductive SessionState where
  | Running
  | Stopped
  | Expired
deriving DecidableEq, Repr

/-- Modelled from the spec: the shadow parameters (sections 3 and 6).  The
`alert_threshold` rational in [0,1] is carried as an explicit
numerator/denominator pair so the sampling loop can compare the running
mismatch rate against it by cross-multiplication. -/
structure ShadowConfig where
  sample_rate : ℚ
  duration : Nat
  alert_on_mismatch : Bool
  alert_threshold_num : Nat
  alert_threshold_den : Nat
deriving Repr

/-- The alert threshold as the rational it denotes. -/
def thresholdQ (cfg : ShadowConfig) : ℚ :=
  (cfg.alert_threshold_num : ℚ) / cfg.alert_threshold_den

/-- The current mismatch rate of a Bulk Report, `mismatches / tested`,
0 when nothing was tested. -/
def mismatchRate (r : BulkReport) : ℚ :=
  if r.tested = 0 then 0 else (r.mismatches : ℚ) / r.tested

/-- The sampling loop's executable test "current mismatch rate exceeds the
alert threshold", by cross-multiplication. -/
def rateAbove (cfg : ShadowConfig) (r : BulkReport) : Bool :=
  cfg.alert_threshold_den * r.mismatches > cfg.alert_threshold_num * r.tested

/-- Modelled from the spec: a Shadow Session (section 3), with the
edge-trigger latch of its sampling loop and the count of alert events it
has emitted (section 4.6). -/
structure ShadowSession where
  config : ShadowConfig
  state : SessionState
  running_report : BulkReport
  wasAbove : Bool
  alert_events : Nat
deriving Repr

/-- A freshly started Shadow Session (state Running, empty report). -/
def startSession (cfg : ShadowConfig) : ShadowSession :=
  { config := cfg, state := .Running, running_report := emptyReport
    wasAbove := rateAbove cfg emptyReport, alert_events := 0 }

/-- Modelled from the spec: one iteration of the sampling loop — fold the
Comparison Result into the running report incrementally, then, if
`alert_on_mismatch` is set and the current mismatch rate exceeds the
threshold, emit an alert exactly on the transition from below to above
(edge-triggered, section 4.6).  A session that is not Running is never
mutated. -/
def shadowObserve (sess : ShadowSession) (c : ComparisonResult) :
    ShadowSession :=
  if sess.state = .Running then
    let report := foldResult sess.running_report c
    let above := rateAbove sess.config report
    let fire := sess.config.alert_on_mismatch && above && !sess.wasAbove
    { sess with
        running_report := report
        wasAbove := above
        alert_events := sess.alert_events + (if fire then 1 else 0) }
  else sess

/-- Run the sampling loop over a sequence of sampled comparisons. -/
def shadowRunList (sess : ShadowSession) (cs : List ComparisonResult) :
    ShadowSession :=
  cs.foldl shadowObserve sess

/-- The number of below-to-above threshold crossings of the mismatch rate
along a sequence of folded samples, stated declaratively over the rational
mismatch rate. -/
def crossings (cfg : ShadowConfig) (r : BulkReport) :
    List ComparisonResult → Nat
  | [] => 0
  | c :: cs =>
      (if mismatchRate (foldResult r c) > thresholdQ cfg ∧
          ¬ mismatchRate r > thresholdQ cfg then 1 else 0) +
        crossings cfg (foldResult r c) cs

/-! ## Command-surface record types, embedded from the repository source -/

/-- Embedded from the source: the record-type options of the DnsQuery n8n
node (src/unnamed/part_007, Record Type options). -/
def dnsQueryNodeRecordTypes : List String :=
  ["A", "AAAA", "CNAME", "MX", "NS", "TXT", "SOA", "PTR", "SRV"]

/-- Embedded from the source: the record-type options of the DnsCompare n8n
node (src/src/dnsscience/n8n/nodes/nodes/DnsCompare/DnsCompare.node.ts,
Record Type options for the single and bulk operations). -/
def dnsCompareNodeRecordTypes : List String :=
  ["A", "AAAA", "CNAME", "MX", "NS", "TXT"]

/-- Embedded from the source: RECORD_TYPES of the dashboard Query page
(src/src/dnsscience/web/dashboard/src/pages/Query.tsx, line 6). -/
def RECORD_TYPES : List String :=
  ["A", "AAAA", "CNAME", "MX", "NS", "TXT", "SOA", "PTR", "SRV"]

/-- Embedded from the source: the record-type select options of the
dashboard Compare page (src/unnamed/part_005, Compare component). -/
def comparePageRecordTypes : List String :=
  ["A", "AAAA", "MX", "NS"]

/-- The record-type list named by the spec (section 6). -/
def specRecordTypes : List String :=
  ["A", "AAAA", "CNAME", "MX", "NS", "TXT", "SOA", "PTR", "SRV"]

/-- Embedded from the source: the classification shown under the bulk
confidence score of the dashboard Compare page (src/unnamed/part_005,
lines 168-173): three tiers with fixed thresholds 0.99 and 0.95. -/
def comparePageRecommendation (score : ℚ) : String :=
  if score ≥ 99 / 100 then "Ready for migration"
  else if score ≥ 95 / 100 then "Review mismatches before migrating"
  else "Not recommended for migration"

/-! ## Configuration AST (spec section 3)

The two dialect parser/generator pairs are not shipped in this source
tree, so they are modelled from the spec.  Configuration text is taken at
the token level (canonical whitespace is exactly what tokenization
abstracts away): a token is a word, an opening brace, a closing brace or a
line break. -/

/-- Modelled from the spec: the two supported resolver dialects
(section 6). -/
inductive Dialect where
  | coredns
  | unbound
deriving DecidableEq, Repr

/-! Modelled from the spec: a directive parameter is a string or a nested
block of directives, and a Directive is a name with an ordered sequence of
parameters (section 3). -/
mutual
inductive Param where
  | str (s : String)
  | block (ds : List Directive)
deriving Repr
inductive Directive where
  | mk (name : String) (params : List Param)
deriving Repr
end

/-- The name of a directive. -/
def Directive.name : Directive → String
  | .mk n _ => n

/-- The parameters of a directive. -/
def Directive.params : Directive → List Param
  | .mk _ ps => ps

/-- Modelled from the spec: a Zone `{name, listen_spec, directives}` with
directive order preserved (section 3). -/
structure Zone where
  name : String
  listen_spec : String
  directives : List Directive
deriving Repr

/-- Modelled from the spec: a Config is the collection of its zones
(section 3), kept in source order so generation is deterministic. -/
structure Config where
  zones : List Zone
deriving Repr

/-- A token of canonical configuration text. -/
inductive Tok where
  | word (s : String)
  | lbrace
  | rbrace
  | nl
deriving DecidableEq, Repr

/-- The keyword opening a zone in each dialect's canonical syntax. -/
def zoneKeyword : Dialect → String
  | .coredns => "zone"
  | .unbound => "server"

/-! Modelled from the spec: the dialect generator, emitting canonical
whitespace-normalized tokens — deterministic syntax emission with no
semantic translation (section 4.2).  A string parameter is one word, a
nested block is brace-delimited, a directive is its name followed by its
parameters and a line break. -/
mutual
def genParam : Param → List Tok
  | .str s => [.word s]
  | .block ds => .lbrace :: (genDirList ds ++ [.rbrace])
def genDirective : Directive → List Tok
  | .mk n ps => .word n :: (genParamList ps ++ [.nl])
def genParamList : List Param → List Tok
  | [] => []
  | p :: ps => genParam p ++ genParamList ps
def genDirList : List Directive → List Tok
  | [] => []
  | d :: ds => genDirective d ++ genDirList ds
end

/-- Canonical text of one zone: the dialect's zone keyword, the zone name,
the listen spec, then the brace-delimited directive list. -/
def genZone (d : Dialect) (z : Zone) : List Tok :=
  .word (zoneKeyword d) :: .word z.name :: .word z.listen_spec :: .lbrace ::
    (genDirList z.directives ++ [.rbrace, .nl])

/-- Canonical text of a list of zones. -/
def genZoneList (d : Dialect) : List Zone → List Tok
  | [] => []
  | z :: zs => genZone d z ++ genZoneList d zs

/-- Modelled from the spec: `generate(AST) -> text` for dialect `d`
(section 4.2). -/
def genConfig (d : Dialect) (cfg : Config) : List Tok :=
  genZoneList d cfg.zones

/-! Structural size of the AST, used as the recursion budget of the
parser. -/
mutual
def psize : Param → Nat
  | .str _ => 1
  | .block ds => 1 + dlistSize ds
def dsize : Directive → Nat
  | .mk _ ps => 1 + plistSize ps
def plistSize : List Param → Nat
  | [] => 0
  | p :: ps => psize p + plistSize ps
def dlistSize : List Directive → Nat
  | [] => 0
  | d :: ds => dsize d + dlistSize ds
end

/-- Structural size of a zone. -/
def zsize (z : Zone) : Nat := 1 + dlistSize z.directives

/-- Structural size of a list of zones. -/
def zlistSize : List Zone → Nat
  | [] => 0
  | z :: zs => zsize z + zlistSize zs

/-- Modelled from the spec: a syntax error aborts the parse; no partial
AST is ever returned (section 7). -/
inductive SyntaxError where
  | unexpectedEnd
  | unexpectedToken (t : Tok)
  | outOfFuel
deriving DecidableEq, Repr

/-! Modelled from the spec: the dialect parser, a recursive-descent reader
of the token stream with an explicit recursion budget.  A parameter list
runs to the end of the directive's line; a word is an opaque string
parameter (unrecognized directives are preserved verbatim, section 4.1);
an opening brace starts a nested block of directives that runs to the
matching closing brace. -/
mutual
def parseParamList : Nat → List Tok → Except SyntaxError (List Param × List Tok)
  | 0, _ => .error .outOfFuel
  | _ + 1, [] => .error .unexpectedEnd
  | _ + 1, .nl :: rest => .ok ([], rest)
  | n + 1, .word s :: rest =>
      match parseParamList n rest with
      | .ok (ps, r) => .ok (.str s :: ps, r)
      | .error e => .error e
  | n + 1, .lbrace :: rest =>
      match parseDirList n rest with
      | .ok (ds, r1) =>
          match parseParamList n r1 with
          | .ok (ps, r2) => .ok (.block ds :: ps, r2)
          | .error e => .error e
      | .error e => .error e
  | _ + 1, .rbrace :: _ => .error (.unexpectedToken .rbrace)
def parseDirList : Nat → List Tok → Except SyntaxError (List Directive × List Tok)
  | 0, _ => .error .outOfFuel
  | _ + 1, [] => .error .unexpectedEnd
  | _ + 1, .rbrace :: rest => .ok ([], rest)
  | n + 1, .word nm :: rest =>
      match parseParamList n rest with
      | .ok (ps, r1) =>
          match parseDirList n r1 with
          | .ok (ds, r2) => .ok (.mk nm ps :: ds, r2)
          | .error e => .error e
      | .error e => .error e
  | _ + 1, t :: _ => .error (.unexpectedToken t)
end

/-- Parse a sequence of zones to the end of the input. -/
def parseZones (d : Dialect) : Nat → List Tok → Except SyntaxError (List Zone)
  | 0, _ => .error .outOfFuel
  | _ + 1, [] => .ok []
  | n + 1, .word kw :: .word nm :: .word ls :: .lbrace :: rest =>
      if kw = zoneKeyword d then
        match parseDirList n rest with
        | .ok (ds, .nl :: r2) =>
            match parseZones d n r2 with
            | .ok zs =>
                .ok ({ name := nm, listen_spec := ls, directives := ds } :: zs)
            | .error e => .error e
        | .ok (_, t :: _) => .error (.unexpectedToken t)
        | .ok (_, []) => .error .unexpectedEnd
        | .error e => .error e
      else .error (.unexpectedToken (.word kw))
  | _ + 1, t :: _ => .error (.unexpectedToken t)

/-- Modelled from the spec: `parse(text) -> Config AST` for dialect `d`,
failing with a SyntaxError on malformed input (section 4.1).  The
recursion budget of one more than the input length always suffices. -/
def parseConfig (d : Dialect) (ts : List Tok) : Except SyntaxError Config :=
  (parseZones d (ts.length + 1) ts).map (fun zs => { zones := zs })

/-! ## Plugin/Feature Mapping Table and Migration Planner
(spec sections 4.3 and 6, mapping rows from the repository's migration
guide and project specification documents) -/

/-- Modelled from the spec: a Mapping Entry `{source_directive,
target_directive-or-none, transform, automated, note}` (section 3). -/
structure MappingEntry where
  source_directive : String
  target_directive : Option String
  transform : List Param → List Param
  automated : Bool
  note : String

/-- Modelled from the spec and the repository's migration guide: the
static, resolver-pair-indexed mapping table.  Directives it does not
recognize have no entry and fall through to the unmapped classification
(section 3). -/
def mappingTable : Dialect → Dialect → List MappingEntry
  | .coredns, .unbound =>
      [ ⟨"forward", some "forward-zone", id, true, "Direct mapping"⟩,
        ⟨"cache", some "cache-max-ttl", id, true, "Adjust TTL values"⟩,
        ⟨"prometheus", some "extended-statistics", id, true,
          "Different metrics format"⟩,
        ⟨"errors", some "verbosity", id, true, "Log level configuration"⟩,
        ⟨"log", some "log-queries", id, true, "Query logging"⟩,
        ⟨"hosts", some "local-data", id, true, "Static records"⟩,
        ⟨"file", some "auth-zone", id, true, "Zone files"⟩,
        ⟨"health", none, id, false, "No equivalent, manual"⟩,
        ⟨"ready", none, id, false, "No equivalent, manual"⟩,
        ⟨"kubernetes", none, id, false, "No direct equivalent"⟩,
        ⟨"rewrite", some "local-zone", id, false, "Limited support"⟩,
        ⟨"loop", some "harden-glue", id, false,
          "Different protection mechanism"⟩ ]
  | .unbound, .coredns =>
      [ ⟨"forward-zone", some "forward", id, true, "Direct mapping"⟩,
        ⟨"cache-max-ttl", some "cache", id, true, "Simplified settings"⟩,
        ⟨"access-control", some "acl", id, true, "Access control lists"⟩,
        ⟨"local-data", some "hosts", id, true, "Static records"⟩,
        ⟨"stub-zone", some "forward", id, true, "Stub forwarding"⟩,
        ⟨"auth-zone", some "file", id, true, "Authoritative zones"⟩,
        ⟨"log-queries", some "log", id, true, "Query logging"⟩ ]
  | _, _ => []

/-- Look up the Mapping Entry keyed by source dialect, target dialect and
directive name (section 4.3). -/
def lookupMapping (src tgt : Dialect) (nm : String) : Option MappingEntry :=
  (mappingTable src tgt).find? (fun e => e.source_directive == nm)

/-- Modelled from the spec: a structured planner warning — a directive that
is unsupported with no known equivalent, or one whose mapping requires a
manual step (sections 4.3 and 7). -/
inductive Warning where
  | unsupported (directive : String)
  | manualStep (directive : String)
deriving DecidableEq, Repr

/-- Modelled from the spec: a Step of a Migration Plan (section 3). -/
structure Step where
  order : Nat
  description : String
  automated : Bool
deriving DecidableEq, Repr

/-- Modelled from the spec: a Migration Plan (section 3); `target_text` is
held as canonical tokens. -/
structure MigrationPlan where
  source_dialect : Dialect
  target_dialect : Dialect
  steps : List Step
  warnings : List Warning
  target_text : List Tok
deriving Repr

/-- Modelled from the spec: translate one directive — when a Mapping Entry
exists and is automated, apply its transform and rename to the target
directive; otherwise emit nothing for it (section 4.3). -/
def mapDirective (src tgt : Dialect) (d : Directive) : Option Directive :=
  match lookupMapping src tgt d.name with
  | some e =>
      if e.automated then
        some (.mk (e.target_directive.getD d.name) (e.transform d.params))
      else none
  | none => none

/-- Modelled from the spec: the warnings one directive contributes — none
when automated, a manual-step warning when mapped but not automated, an
unsupported warning when it has no Mapping Entry at all (section 4.3). -/
def directiveWarnings (src tgt : Dialect) (d : Directive) : List Warning :=
  match lookupMapping src tgt d.name with
  | some e => if e.automated then [] else [.manualStep d.name]
  | none => [.unsupported d.name]

/-- Translate one zone into the target dialect's AST. -/
def planZone (src tgt : Dialect) (z : Zone) : Zone :=
  { name := z.name, listen_spec := z.listen_spec
    directives := z.directives.filterMap (mapDirective src tgt) }

/-- The target-dialect AST the planner emits. -/
def planTargetAst (src tgt : Dialect) (cfg : Config) : Config :=
  { zones := cfg.zones.map (planZone src tgt) }

/-- All directives of a Config in zone-walk (encounter) order. -/
def allDirectives (cfg : Config) : List Directive :=
  cfg.zones.flatMap (·.directives)

/-- Modelled from the spec: warnings accumulated in directive-encounter
order while walking the zones (section 4.3). -/
def planWarnings (src tgt : Dialect) (cfg : Config) : List Warning :=
  (allDirectives cfg).flatMap (directiveWarnings src tgt)

/-- Distinct strings in first-encounter order. -/
def distinctFirst : List String → List String
  | [] => []
  | x :: xs => x :: (distinctFirst xs).filter (· ≠ x)

/-- Modelled from the spec: the ordered step list — parse first, then one
step per distinct target directive category actually emitted in
first-encounter order, then the manual steps (section 4.3). -/
def planSteps (src tgt : Dialect) (cfg : Config) : List Step :=
  let emitted :=
    distinctFirst ((allDirectives (planTargetAst src tgt cfg)).map
      Directive.name)
  let manual := (allDirectives cfg).filterMap fun d =>
    match lookupMapping src tgt d.name with
    | some e => if e.automated then none else some d.name
    | none => none
  let descs : List (String × Bool) :=
    ("parse source configuration", true) ::
      (emitted.map fun c => ("emit " ++ c ++ " directives", true)) ++
        manual.map fun m => ("manually migrate " ++ m, false)
  (descs.enum).map fun p => ⟨p.1 + 1, p.2.1, p.2.2⟩

/-- Modelled from the spec: assemble the Migration Plan from an
already-parsed source AST — steps, warnings, and the generated target text
(section 4.3). -/
def planFromAst (src tgt : Dialect) (cfg : Config) : MigrationPlan :=
  { source_dialect := src
    target_dialect := tgt
    steps := planSteps src tgt cfg
    warnings := planWarnings src tgt cfg
    target_text := genConfig tgt (planTargetAst src tgt cfg) }

/-- Modelled from the spec: `plan(text, src, tgt)` — parse the source text
with the source dialect's parser, then map and generate; a parse failure
aborts the call entirely and no partial Plan is returned (sections 4.3
and 7). -/
def plan (src tgt : Dialect) (ts : List Tok) :
    Except SyntaxError MigrationPlan :=
  (parseConfig src ts).map (planFromAst src tgt)

/-! ## Concrete fixtures for the worked examples of the spec (section 8) -/

/-- Default comparison options: nothing ignored. -/
def defaultOptions : CompareOptions := ⟨false, false⟩

/-- The worked example's query: `example.com`, type `A`. -/
def exampleQuery : Query := ⟨"example.com", "A"⟩

/-- The worked example's A record. -/
def exampleRecordA : DnsRecord := ⟨"example.com", "A", 300, "93.184.216.34"⟩

/-- Source response of a matching comparison. -/
def sourceOk : Response := ⟨.NOERROR, [exampleRecordA], 25⟩

/-- Target response of a matching comparison. -/
def targetOk : Response := ⟨.NOERROR, [exampleRecordA], 18⟩

/-- Target response of the SERVFAIL divergence. -/
def targetServfail : Response := ⟨.SERVFAIL, [], 18⟩

/-- A comparison where both resolvers agree. -/
def matchedResult : ComparisonResult :=
  mkResult defaultOptions exampleQuery sourceOk targetOk

/-- A comparison where the target diverges with SERVFAIL. -/
def servfailResult : ComparisonResult :=
  mkResult defaultOptions exampleQuery sourceOk targetServfail

/-- A comparison where the target suffered a transport timeout. -/
def timeoutResult : ComparisonResult :=
  mkResult defaultOptions exampleQuery sourceOk
    (outcomeToResponse 0 .transportFail)

/-- The bulk-scoring example of spec section 8: 100 domains, 98 matches,
one SERVFAIL divergence, one transport timeout on the target. -/
def exampleBulk : List ComparisonResult :=
  List.replicate 98 matchedResult ++ [servfailResult, timeoutResult]

/-- The shadow example's configuration: alert threshold 0.01, alerting
enabled. -/
def exampleShadowConfig : ShadowConfig := ⟨1, 3600, true, 1, 100⟩

/-- Samples before sample N of the shadow example: mismatch rate ends at
1/125 = 0.008, below the threshold throughout. -/
def shadowPrefix : List ComparisonResult :=
  List.replicate 124 matchedResult ++ [servfailResult]

/-- The shadow example through sample N: the mismatch on sample N lifts the
rate above the threshold. -/
def shadowAtN : List ComparisonResult := shadowPrefix ++ [servfailResult]

/-- The shadow example through samples N+1..N+5, the rate staying above
the threshold. -/
def shadowFull : List ComparisonResult :=
  shadowAtN ++ List.replicate 5 servfailResult

/-- A source configuration containing a cluster-discovery directive with
no Mapping Entry for the coredns-to-unbound pair (the migration-warning
example of spec section 8). -/
def exampleUnmappedConfig : Config :=
  ⟨[⟨".", "53",
      [.mk "forward" [.str "8.8.8.8"],
       .mk "cluster-discovery" [.str "auto"]]⟩]⟩

/-! ## Helper lemmas: incremental aggregation of the Confidence Scorer -/

theorem foldl_tested (cs : List ComparisonResult) :
    ∀ r : BulkReport, (cs.foldl foldResult r).tested = r.tested + cs.length := by
  induction cs with
  | nil => intro r; simp
  | cons c cs ih =>
      intro r
      simp only [List.foldl_cons, ih, List.length_cons]
      simp [foldResult]
      omega

theorem foldl_match_count (cs : List ComparisonResult) :
    ∀ r : BulkReport,
      (cs.foldl foldResult r).«matches» = r.«matches» + cs.countP (·.matched) := by
  induction cs with
  | nil => intro r; simp
  | cons c cs ih =>
      intro r
      simp only [List.foldl_cons, ih, List.countP_cons]
      simp [foldResult]
      by_cases h : c.matched <;> simp [h] <;> omega

theorem foldl_mismatch_count (cs : List ComparisonResult) :
    ∀ r : BulkReport,
      (cs.foldl foldResult r).mismatches =
        r.mismatches + cs.countP (fun c => !c.matched) := by
  induction cs with
  | nil => intro r; simp
  | cons c cs ih =>
      intro r
      simp only [List.foldl_cons, ih, List.countP_cons]
      simp [foldResult]
      by_cases h : c.matched <;> simp [h] <;> omega

theorem foldl_error_count (cs : List ComparisonResult) :
    ∀ r : BulkReport,
      (cs.foldl foldResult r).errors = r.errors + cs.countP isErrorResult := by
  induction cs with
  | nil => intro r; simp
  | cons c cs ih =>
      intro r
      simp only [List.foldl_cons, ih, List.countP_cons]
      simp [foldResult]
      by_cases h : isErrorResult c <;> simp [h] <;> omega

theorem foldl_score (cs : List ComparisonResult) :
    ∀ r : BulkReport, cs ≠ [] →
      (cs.foldl foldResult r).confidence_score =
        confidenceScore (cs.foldl foldResult r).«matches»
          (cs.foldl foldResult r).tested := by
  induction cs with
  | nil => intro r h; exact absurd rfl h
  | cons c cs ih =>
      intro r _
      rcases eq_or_ne cs [] with h | h
      · subst h; simp [foldResult, confidenceScore]
      · simpa using ih (foldResult r c) h

theorem countP_add_countP_not {α : Type} (p : α → Bool) (l : List α) :
    l.countP p + l.countP (fun a => !p a) = l.length := by
  induction l with
  | nil => simp
  | cons a l ih =>
      simp only [List.countP_cons, List.length_cons]
      by_cases h : p a <;> simp [h] <;> omega

theorem aggregate_tested (cs : List ComparisonResult) :
    (aggregate cs).tested = cs.length := by
  simpa [emptyReport] using foldl_tested cs emptyReport

theorem aggregate_match_count (cs : List ComparisonResult) :
    (aggregate cs).«matches» = cs.countP (·.matched) := by
  simpa [emptyReport] using foldl_match_count cs emptyReport

theorem aggregate_mismatch_count (cs : List ComparisonResult) :
    (aggregate cs).mismatches = cs.countP (fun c => !c.matched) := by
  simpa [emptyReport] using foldl_mismatch_count cs emptyReport

theorem aggregate_error_count (cs : List ComparisonResult) :
    (aggregate cs).errors = cs.countP isErrorResult := by
  simpa [emptyReport] using foldl_error_count cs emptyReport

theorem aggregate_score (cs : List ComparisonResult) :
    (aggregate cs).confidence_score =
      confidenceScore (aggregate cs).«matches» (aggregate cs).tested := by
  rcases eq_or_ne cs [] with h | h
  · subst h; simp [aggregate, emptyReport, confidenceScore]
  · exact foldl_score cs emptyReport h

/-- C1: for every Bulk Report aggregated by the Confidence Scorer over a
sequence of Comparison Results, `matches` counts the results with
`match = true`, `mismatches` equals `tested - matches` (errored queries
are among the unmatched, never dropped: matches and mismatches always sum
to tested), and `confidence_score` equals `matches / tested` except that
`tested = 0` yields score 0, never a vacuous 1. -/
theorem c1_bulk_report_aggregation (cs : List ComparisonResult) :
    (aggregate cs).tested = cs.length ∧
    (aggregate cs).«matches» = cs.countP (·.matched) ∧
    (aggregate cs).mismatches = (aggregate cs).tested - (aggregate cs).«matches» ∧
    (aggregate cs).«matches» + (aggregate cs).mismatches = (aggregate cs).tested ∧
    (aggregate cs).confidence_score =
      (if (aggregate cs).tested = 0 then 0
        else ((aggregate cs).«matches» : ℚ) / (aggregate cs).tested) ∧
    (aggregate ([] : List ComparisonResult)).confidence_score = 0 := by
  have hsum : (aggregate cs).«matches» + (aggregate cs).mismatches =
      (aggregate cs).tested := by
    rw [aggregate_tested, aggregate_match_count, aggregate_mismatch_count]
    exact countP_add_countP_not _ cs
  refine ⟨aggregate_tested cs, aggregate_match_count cs, by omega, hsum, ?_, ?_⟩
  · simpa [confidenceScore] using aggregate_score cs
  · simp [aggregate, emptyReport]

/-! ## Helper lemmas: the diff algorithm -/

theorem diffOrdered_eq_nil_iff (opts : CompareOptions) :
    ∀ ss ts : List DnsRecord,
      diffOrdered opts ss ts = [] ↔
        ss.map (recordKey opts) = ts.map (recordKey opts) := by
  intro ss
  induction ss with
  | nil => intro ts; cases ts <;> simp [diffOrdered]
  | cons s ss ih =>
      intro ts
      cases ts with
      | nil => simp [diffOrdered]
      | cons t ts =>
          by_cases h : recordKey opts s = recordKey opts t <;>
            simp [diffOrdered, recMatches, h, ih]

theorem removeFirst_some (opts : CompareOptions) (r : DnsRecord) :
    ∀ ts ts' : List DnsRecord, removeFirst opts r ts = some ts' →
      (↑(ts.map (recordKey opts)) :
          Multiset (String × String × String × Option Nat)) =
        recordKey opts r ::ₘ ↑(ts'.map (recordKey opts)) := by
  intro ts
  induction ts with
  | nil => intro ts' h; simp [removeFirst] at h
  | cons t ts ih =>
      intro ts' h
      by_cases hm : recMatches opts r t
      · have hk : recordKey opts r = recordKey opts t := by
          simpa [recMatches] using hm
        simp only [removeFirst, if_pos hm, Option.some.injEq] at h
        subst h
        simp [hk]
      · simp only [removeFirst, if_neg hm, Option.map_eq_some'] at h
        obtain ⟨us, hus, hts⟩ := h
        subst hts
        have := ih us hus
        simp only [List.map_cons]
        rw [← Multiset.cons_coe, ← Multiset.cons_coe, this,
          Multiset.cons_swap]

theorem removeFirst_none (opts : CompareOptions) (r : DnsRecord) :
    ∀ ts : List DnsRecord, removeFirst opts r ts = none →
      ∀ t ∈ ts, recordKey opts t ≠ recordKey opts r := by
  intro ts
  induction ts with
  | nil => intro _ t ht; simp at ht
  | cons t ts ih =>
      intro h u hu
      by_cases hm : recMatches opts r t
      · simp [removeFirst, if_pos hm] at h
      · simp only [removeFirst, if_neg hm, Option.map_eq_none'] at h
        rcases List.mem_cons.mp hu with rfl | hu'
        · intro hk
          exact hm (by simpa [recMatches] using hk.symm)
        · exact ih h u hu'

theorem diffUnordered_eq_nil_iff (opts : CompareOptions) :
    ∀ ss ts : List DnsRecord,
      diffUnordered opts ss ts = [] ↔
        (↑(ss.map (recordKey opts)) :
            Multiset (String × String × String × Option Nat)) =
          ↑(ts.map (recordKey opts)) := by
  intro ss
  induction ss with
  | nil =>
      intro ts
      simp [diffUnordered, List.map_eq_nil_iff, eq_comm (a := (0 : Multiset _))]
  | cons s ss ih =>
      intro ts
      cases h : removeFirst opts s ts with
      | some ts' =>
          have hrw := removeFirst_some opts s ts ts' h
          rw [show diffUnordered opts (s :: ss) ts = diffUnordered opts ss ts'
              from by simp [diffUnordered, h]]
          rw [ih ts', List.map_cons, ← Multiset.cons_coe, hrw,
            Multiset.cons_inj_right]
      | none =>
          apply iff_of_false
          · simp [diffUnordered, h]
          · intro heq
            have hmem : recordKey opts s ∈
                (↑(ts.map (recordKey opts)) : Multiset _) := by
              rw [← heq]
              simp
            obtain ⟨t, ht, hk⟩ := List.mem_map.mp (Multiset.mem_coe.mp hmem)
            exact removeFirst_none opts s ts h t ht hk

/-- C2: for every Comparison Result produced by the comparator, `match` is
true iff the two responses' rcodes are equal and the record comparison
under the active tolerance options yields zero Differences; with
`ignore_order` unset a zero-Difference comparison means the two record
sequences are equal position-for-position, and with it set it means the
two sides are equal as multisets (duplicate records matching duplicate
counts). -/
theorem c2_comparator_match (opts : CompareOptions) (q : Query)
    (src tgt : Response) :
    ((mkResult opts q src tgt).matched = true ↔
      (src.rcode = tgt.rcode ∧
        diffRecords opts src.records tgt.records = [])) ∧
    (opts.ignore_order = false →
      (diffRecords opts src.records tgt.records = [] ↔
        src.records.map (recordKey opts) = tgt.records.map (recordKey opts))) ∧
    (opts.ignore_order = true →
      (diffRecords opts src.records tgt.records = [] ↔
        (↑(src.records.map (recordKey opts)) :
            Multiset (String × String × String × Option Nat)) =
          ↑(tgt.records.map (recordKey opts)))) := by
  refine ⟨?_, ?_, ?_⟩
  · simp [mkResult, List.isEmpty_iff]
  · intro h; simp [diffRecords, h, diffOrdered_eq_nil_iff]
  · intro h; simp [diffRecords, h, diffUnordered_eq_nil_iff]

/-- Witness for C2 at the worked example's responses with default
options. -/
theorem c2_comparator_match_witness :
    diffRecords defaultOptions sourceOk.records targetOk.records = [] ↔
      sourceOk.records.map (recordKey defaultOptions) =
        targetOk.records.map (recordKey defaultOptions) :=
  (c2_comparator_match defaultOptions exampleQuery sourceOk targetOk).2.1 rfl

/-- C3: a side that suffers a transport failure (after exhausting the
retry budget, which yields a transport-failure outcome exactly when every
attempt failed) enters the comparison as an `rcode = ERROR` Response, and
the comparison is a mismatch whenever the other side is a genuine resolver
response (whose rcode is never the synthetic ERROR).  In the bulk example
of spec section 8 — 98 matches, one SERVFAIL divergence and one transport
timeout — the report has `matches = 98`, `mismatches = 2`, `errors = 1`
and `confidence_score = 0.98`, the errors counter distinct from the
mismatch counter. -/
theorem c3_transport_failure_is_mismatch :
    (∀ (opts : CompareOptions) (q : Query) (resp : Response) (qt : Int),
        resp.rcode ≠ .ERROR →
        (mkResult opts q (outcomeToResponse qt .transportFail) resp).matched
            = false ∧
          (outcomeToResponse qt .transportFail).rcode = .ERROR) ∧
    (∀ (opts : CompareOptions) (q : Query) (resp : Response) (qt : Int),
        resp.rcode ≠ .ERROR →
        (mkResult opts q resp (outcomeToResponse qt .transportFail)).matched
          = false) ∧
    (∀ (budget : Nat) (att : Nat → Option Response),
        (∀ i, i ≤ budget → att i = none) →
        attemptQuery budget att = .transportFail) ∧
    ((aggregate exampleBulk).tested = 100 ∧
      (aggregate exampleBulk).«matches» = 98 ∧
      (aggregate exampleBulk).mismatches = 2 ∧
      (aggregate exampleBulk).errors = 1 ∧
      (aggregate exampleBulk).confidence_score = 98 / 100) := by
  refine ⟨?_, ?_, ?_, ?_, ?_, ?_, ?_, ?_⟩
  · intro opts q resp qt h
    have h' : Rcode.ERROR ≠ resp.rcode := fun hh => h hh.symm
    exact ⟨by simp [mkResult, outcomeToResponse, h'], rfl⟩
  · intro opts q resp qt h
    simp [mkResult, outcomeToResponse, h]
  · intro budget
    induction budget with
    | zero =>
        intro att h
        simp [attemptQuery, h 0 (Nat.le_refl 0)]
    | succ n ih =>
        intro att h
        have h0 : att 0 = none := h 0 (Nat.zero_le _)
        simp only [attemptQuery, h0]
        exact ih _ (fun i hi => h (i + 1) (Nat.succ_le_succ hi))
  · have := aggregate_tested exampleBulk
    rw [this]; decide
  · rw [aggregate_match_count]; decide
  · rw [aggregate_mismatch_count]; decide
  · rw [aggregate_error_count]; decide
  · rw [aggregate_score, confidenceScore,
      aggregate_match_count, aggregate_tested]
    norm_num [show exampleBulk.countP (·.matched) = 98 from by decide,
      show exampleBulk.length = 100 from by decide]

/-- Witness for C3: a transport timeout on either side of the worked
example is reported as `rcode = ERROR` and never matches, and a budget of
one retry with both attempts failing is an exhausted retry budget. -/
theorem c3_transport_failure_is_mismatch_witness :
    ((mkResult defaultOptions exampleQuery
        (outcomeToResponse 0 .transportFail) sourceOk).matched = false ∧
      (outcomeToResponse 0 .transportFail).rcode = .ERROR) ∧
    (mkResult defaultOptions exampleQuery sourceOk
      (outcomeToResponse 0 .transportFail)).matched = false ∧
    attemptQuery 1 (fun _ => none) = .transportFail :=
  ⟨c3_transport_failure_is_mismatch.1 defaultOptions exampleQuery sourceOk 0
      (by decide),
    c3_transport_failure_is_mismatch.2.1 defaultOptions exampleQuery sourceOk 0
      (by decide),
    c3_transport_failure_is_mismatch.2.2.1 1 (fun _ => none)
      (fun _ _ => rfl)⟩

/-- C4 counterexample: the recommendation classifier of the cited source
(the dashboard Compare page) is not the two-way threshold classifier the
claim states.  At confidence score 0.97, which is below the default
threshold 0.99, it produces the third recommendation "Review mismatches
before migrating" rather than a "not recommended" recommendation. -/
theorem c4_counterexample :
    ¬ ((97 : ℚ) / 100 ≥ defaultThreshold) ∧
    comparePageRecommendation ((97 : ℚ) / 100) =
      "Review mismatches before migrating" ∧
    comparePageRecommendation ((97 : ℚ) / 100) ≠
      "Not recommended for migration" ∧
    comparePageRecommendation ((97 : ℚ) / 100) ≠ "Ready for migration" := by
  have h99 : ¬ ((97 : ℚ) / 100 ≥ 99 / 100) := by norm_num
  have h95 : (97 : ℚ) / 100 ≥ 95 / 100 := by norm_num
  have hval : comparePageRecommendation ((97 : ℚ) / 100) =
      "Review mismatches before migrating" := by
    rw [comparePageRecommendation, if_neg h99, if_pos h95]
  refine ⟨by norm_num [defaultThreshold], hval, ?_, ?_⟩
  · rw [hval]; decide
  · rw [hval]; decide

/-- C4 (amended): the engine's threshold recommendation, modelled from the
spec, is "safe to proceed" iff the score reaches the caller-supplied
threshold (default 0.99) and otherwise "not recommended", with the exact
score always reported alongside; an empty Bulk Report scores 0 and is not
recommended.  The dashboard Compare page, by contrast, classifies the
score into three fixed tiers: "Ready for migration" iff score ≥ 0.99,
"Review mismatches before migrating" iff 0.95 ≤ score < 0.99, and
"Not recommended for migration" iff score < 0.95 — so for an empty report
it also shows the not-recommended tier. -/
theorem c4_amended_recommendation :
    (∀ t s : ℚ,
      (recommend t s = "safe to proceed" ↔ s ≥ t) ∧
      (recommend t s = "not recommended" ↔ ¬ s ≥ t) ∧
      recommendWithScore t s = (recommend t s, s)) ∧
    defaultThreshold = 99 / 100 ∧
    recommend defaultThreshold (aggregate []).confidence_score =
      "not recommended" ∧
    (∀ s : ℚ,
      (comparePageRecommendation s = "Ready for migration" ↔ s ≥ 99 / 100) ∧
      (comparePageRecommendation s = "Review mismatches before migrating" ↔
        (¬ s ≥ 99 / 100 ∧ s ≥ 95 / 100)) ∧
      (comparePageRecommendation s = "Not recommended for migration" ↔
        ¬ s ≥ 95 / 100)) ∧
    comparePageRecommendation (aggregate []).confidence_score =
      "Not recommended for migration" := by
  have hscore : (aggregate ([] : List ComparisonResult)).confidence_score = 0 := by
    simp [aggregate, emptyReport]
  refine ⟨?_, rfl, ?_, ?_, ?_⟩
  · intro t s
    by_cases h : s ≥ t
    · refine ⟨?_, ?_, rfl⟩
      · rw [recommend, if_pos h]; simpa using h
      · rw [recommend, if_pos h]
        constructor
        · intro hh; exact absurd hh (by decide)
        · intro hh; exact absurd h hh
    · refine ⟨?_, ?_, rfl⟩
      · rw [recommend, if_neg h]
        constructor
        · intro hh; exact absurd hh (by decide)
        · intro hh; exact absurd hh h
      · rw [recommend, if_neg h]; simpa using h
  · rw [hscore, recommend, if_neg (by norm_num [defaultThreshold])]
  · intro s
    by_cases h99 : s ≥ 99 / 100
    · have h95 : s ≥ 95 / 100 := le_trans (by norm_num) h99
      rw [comparePageRecommendation, if_pos h99]
      refine ⟨by simpa using h99, ?_, ?_⟩
      · constructor
        · intro hh; exact absurd hh (by decide)
        · intro hh; exact absurd h99 hh.1
      · constructor
        · intro hh; exact absurd hh (by decide)
        · intro hh; exact absurd h95 hh
    · by_cases h95 : s ≥ 95 / 100
      · rw [comparePageRecommendation, if_neg h99, if_pos h95]
        refine ⟨?_, ?_, ?_⟩
        · constructor
          · intro hh; exact absurd hh (by decide)
          · intro hh; exact absurd hh h99
        · simp [h99, h95]
        · constructor
          · intro hh; exact absurd hh (by decide)
          · intro hh; exact absurd h95 hh
      · rw [comparePageRecommendation, if_neg h99, if_neg h95]
        refine ⟨?_, ?_, ?_⟩
        · constructor
          · intro hh; exact absurd hh (by decide)
          · intro hh; exact absurd hh h99
        · constructor
          · intro hh; exact absurd hh (by decide)
          · intro hh; exact absurd hh.2 h95
        · simpa using h95
  · rw [hscore, comparePageRecommendation, if_neg (by norm_num),
      if_neg (by norm_num)]

/-- Witness for C4 (amended) at threshold 1 and score 0. -/
theorem c4_amended_recommendation_witness :
    (recommend 1 0 = "safe to proceed" ↔ (0 : ℚ) ≥ 1) ∧
    (recommend 1 0 = "not recommended" ↔ ¬ (0 : ℚ) ≥ 1) ∧
    recommendWithScore 1 0 = (recommend 1 0, 0) :=
  c4_amended_recommendation.1 1 0

/-- C10 counterexample: the spec's record-type list names SRV (and CNAME,
TXT, SOA, PTR), but the DnsCompare workflow node accepts only six types
and the dashboard Compare page only four, so the comparison surfaces do
not accept exactly the spec's nine record types. -/
theorem c10_counterexample :
    "SRV" ∈ specRecordTypes ∧ "SRV" ∉ dnsCompareNodeRecordTypes ∧
    "SOA" ∉ dnsCompareNodeRecordTypes ∧ "PTR" ∉ dnsCompareNodeRecordTypes ∧
    "CNAME" ∈ specRecordTypes ∧ "CNAME" ∉ comparePageRecordTypes ∧
    "TXT" ∉ comparePageRecordTypes := by decide

/-- C10 (amended): the query surfaces (the DnsQuery workflow node and the
dashboard Query page) accept exactly the nine record types A, AAAA, CNAME,
MX, NS, TXT, SOA, PTR, SRV; the comparison surfaces accept strict subsets
of them — the DnsCompare workflow node exactly A, AAAA, CNAME, MX, NS,
TXT, and the dashboard Compare page exactly A, AAAA, MX, NS. -/
theorem c10_record_type_sets :
    dnsQueryNodeRecordTypes = specRecordTypes ∧
    RECORD_TYPES = specRecordTypes ∧
    dnsCompareNodeRecordTypes = ["A", "AAAA", "CNAME", "MX", "NS", "TXT"] ∧
    comparePageRecordTypes = ["A", "AAAA", "MX", "NS"] ∧
    dnsCompareNodeRecordTypes ⊆ specRecordTypes ∧
    comparePageRecordTypes ⊆ dnsCompareNodeRecordTypes ∧
    specRecordTypes.length = 9 := by
  refine ⟨rfl, rfl, rfl, rfl, ?_, ?_, rfl⟩ <;> decide

/-! ## Helper lemmas: the shadow sampling loop -/

theorem foldResult_tested_succ (r : BulkReport) (c : ComparisonResult) :
    (foldResult r c).tested = r.tested + 1 := by
  simp [foldResult]

theorem rateAbove_iff (cfg : ShadowConfig) (r : BulkReport)
    (hden : cfg.alert_threshold_den ≠ 0)
    (hinv : r.tested = 0 → r.mismatches = 0) :
    rateAbove cfg r = true ↔ mismatchRate r > thresholdQ cfg := by
  rcases Nat.eq_zero_or_pos r.tested with h0 | hpos
  · have hm := hinv h0
    rw [rateAbove, mismatchRate, if_pos h0]
    simp only [hm, h0, Nat.mul_zero, decide_eq_true_eq]
    have hθ : (0 : ℚ) ≤ thresholdQ cfg := by rw [thresholdQ]; positivity
    constructor
    · intro h; omega
    · intro h
      exact absurd h (not_lt.mpr hθ)
  · have hden' : (0 : ℚ) < cfg.alert_threshold_den :=
      Nat.cast_pos.mpr (Nat.pos_of_ne_zero hden)
    have htest' : (0 : ℚ) < r.tested := Nat.cast_pos.mpr hpos
    rw [rateAbove, mismatchRate, if_neg (by omega), thresholdQ,
      decide_eq_true_eq]
    constructor
    · intro h
      rw [gt_iff_lt, div_lt_div_iff₀ hden' htest']
      exact_mod_cast
        (by simpa [Nat.mul_comm] using h : cfg.alert_threshold_num * r.tested <
          r.mismatches * cfg.alert_threshold_den)
    · intro h
      rw [gt_iff_lt, div_lt_div_iff₀ hden' htest'] at h
      have h' : cfg.alert_threshold_num * r.tested <
          r.mismatches * cfg.alert_threshold_den := by exact_mod_cast h
      simpa [Nat.mul_comm] using h'

theorem shadow_alert_count (cs : List ComparisonResult) :
    ∀ sess : ShadowSession,
      sess.state = .Running →
      sess.config.alert_on_mismatch = true →
      sess.config.alert_threshold_den ≠ 0 →
      (sess.running_report.tested = 0 → sess.running_report.mismatches = 0) →
      sess.wasAbove = rateAbove sess.config sess.running_report →
      (shadowRunList sess cs).alert_events =
        sess.alert_events + crossings sess.config sess.running_report cs := by
  induction cs with
  | nil => intro sess _ _ _ _ _; simp [shadowRunList, crossings]
  | cons c cs ih =>
      intro sess hrun halert hden hinv hwas
      set report' := foldResult sess.running_report c with hreport'
      have hstep : shadowObserve sess c =
          { sess with
              running_report := report'
              wasAbove := rateAbove sess.config report'
              alert_events := sess.alert_events +
                (if sess.config.alert_on_mismatch &&
                    rateAbove sess.config report' && !sess.wasAbove
                  then 1 else 0) } := by
        rw [shadowObserve, if_pos hrun]
      have hinv' : report'.tested = 0 → report'.mismatches = 0 := by
        rw [hreport', foldResult_tested_succ]
        omega
      have hrest := ih (shadowObserve sess c)
        (by rw [hstep]; exact hrun) (by rw [hstep]; exact halert)
        (by rw [hstep]; exact hden) (by rw [hstep]; exact hinv')
        (by rw [hstep])
      have hp' := rateAbove_iff sess.config report' hden hinv'
      have hp := rateAbove_iff sess.config sess.running_report hden hinv
      have toFalse : ∀ (b : Bool) (P : Prop), (b = true ↔ P) → ¬ P →
          b = false := by
        intro b P hiff hnp
        rcases Bool.eq_false_or_eq_true b with h | h
        · exact absurd (hiff.mp h) hnp
        · exact h
      have hcond :
          (if sess.config.alert_on_mismatch &&
              rateAbove sess.config report' && !sess.wasAbove
            then 1 else 0) =
          (if mismatchRate report' > thresholdQ sess.config ∧
              ¬ mismatchRate sess.running_report > thresholdQ sess.config
            then 1 else 0) := by
        rw [halert, hwas]
        by_cases hA : mismatchRate report' > thresholdQ sess.config <;>
          by_cases hB : mismatchRate sess.running_report >
            thresholdQ sess.config
        · rw [hp'.mpr hA, hp.mpr hB]; simp [hA, hB]
        · rw [hp'.mpr hA, toFalse _ _ hp hB]; simp [hA, hB]
        · rw [toFalse _ _ hp' hA, hp.mpr hB]; simp [hA, hB]
        · rw [toFalse _ _ hp' hA, toFalse _ _ hp hB]; simp [hA, hB]
      have hfold : shadowRunList sess (c :: cs) =
          shadowRunList (shadowObserve sess c) cs := rfl
      rw [hfold, hrest, hstep]
      dsimp only
      rw [crossings, ← hreport', hcond]
      omega

set_option maxRecDepth 20000 in
/-- C9: in a Running Shadow Session with `alert_on_mismatch` set, the
number of alert events emitted over any sample sequence equals the number
of below-to-above crossings of the current mismatch rate over the alert
threshold — one alert per crossing, never re-emitted while the rate stays
above.  In the worked instance with threshold 0.01, the rate reaches
exactly 0.008 below the threshold, sample N lifts it above (one alert, at
N), and five further above-threshold samples emit nothing more. -/
theorem c9_shadow_alert_edge_trigger :
    (∀ (cfg : ShadowConfig) (cs : List ComparisonResult),
        cfg.alert_on_mismatch = true →
        cfg.alert_threshold_den ≠ 0 →
        (shadowRunList (startSession cfg) cs).alert_events =
          crossings cfg emptyReport cs) ∧
    ((shadowRunList (startSession exampleShadowConfig)
        shadowPrefix).alert_events = 0 ∧
      (shadowRunList (startSession exampleShadowConfig)
        shadowAtN).alert_events = 1 ∧
      (shadowRunList (startSession exampleShadowConfig)
        shadowFull).alert_events = 1 ∧
      mismatchRate (shadowRunList (startSession exampleShadowConfig)
        shadowPrefix).running_report = 8 / 1000 ∧
      mismatchRate (shadowRunList (startSession exampleShadowConfig)
        shadowAtN).running_report > 1 / 100) := by
  refine ⟨?_, ?_, ?_, ?_, ?_, ?_⟩
  · intro cfg cs halert hden
    simpa [startSession] using shadow_alert_count cs (startSession cfg) rfl
      halert hden (by intro _; rfl) rfl
  · decide
  · decide
  · decide
  · rw [mismatchRate,
      show (shadowRunList (startSession exampleShadowConfig)
        shadowPrefix).running_report.tested = 125 from by decide,
      show (shadowRunList (startSession exampleShadowConfig)
        shadowPrefix).running_report.mismatches = 1 from by decide]
    norm_num
  · rw [gt_iff_lt, mismatchRate,
      show (shadowRunList (startSession exampleShadowConfig)
        shadowAtN).running_report.tested = 126 from by decide,
      show (shadowRunList (startSession exampleShadowConfig)
        shadowAtN).running_report.mismatches = 2 from by decide]
    norm_num

/-- Witness for C9 on the example configuration and an empty sample
sequence. -/
theorem c9_shadow_alert_edge_trigger_witness :
    (shadowRunList (startSession exampleShadowConfig) []).alert_events =
      crossings exampleShadowConfig emptyReport [] :=
  c9_shadow_alert_edge_trigger.1 exampleShadowConfig [] rfl (by decide)

/-! ## Helper lemmas: the parser's recursion budget never runs out on
generated text -/

mutual
theorem psize_le_genParam_length : ∀ p : Param,
    psize p ≤ (genParam p).length
  | .str s => by simp [psize, genParam]
  | .block ds => by
      have h := dlistSize_le_genDirList_length ds
      simp only [psize, genParam, List.length_cons, List.length_append,
        List.length_singleton]
      omega
theorem dsize_le_genDirective_length : ∀ d : Directive,
    dsize d ≤ (genDirective d).length
  | .mk nm ps => by
      have h := plistSize_le_genParamList_length ps
      simp only [dsize, genDirective, List.length_cons, List.length_append,
        List.length_singleton]
      omega
theorem plistSize_le_genParamList_length : ∀ ps : List Param,
    plistSize ps ≤ (genParamList ps).length
  | [] => by simp [plistSize, genParamList]
  | p :: ps => by
      have h1 := psize_le_genParam_length p
      have h2 := plistSize_le_genParamList_length ps
      simp only [plistSize, genParamList, List.length_append]
      omega
theorem dlistSize_le_genDirList_length : ∀ ds : List Directive,
    dlistSize ds ≤ (genDirList ds).length
  | [] => by simp [dlistSize, genDirList]
  | d :: ds => by
      have h1 := dsize_le_genDirective_length d
      have h2 := dlistSize_le_genDirList_length ds
      simp only [dlistSize, genDirList, List.length_append]
      omega
end

theorem zlistSize_le_genZoneList_length (d : Dialect) :
    ∀ zs : List Zone, zlistSize zs ≤ (genZoneList d zs).length := by
  intro zs
  induction zs with
  | nil => simp [zlistSize, genZoneList]
  | cons z zs ih =>
      have h := dlistSize_le_genDirList_length z.directives
      simp only [zlistSize, genZoneList, genZone, zsize, List.length_append,
        List.length_cons]
      omega

theorem parse_gen_lists (n : Nat) :
    (∀ (ps : List Param) (rest : List Tok), plistSize ps < n →
        parseParamList n (genParamList ps ++ .nl :: rest) = .ok (ps, rest)) ∧
    (∀ (ds : List Directive) (rest : List Tok), dlistSize ds < n →
        parseDirList n (genDirList ds ++ .rbrace :: rest) = .ok (ds, rest)) := by
  induction n with
  | zero =>
      exact ⟨fun ps _ h => absurd h (Nat.not_lt_zero _),
        fun ds _ h => absurd h (Nat.not_lt_zero _)⟩
  | succ n ih =>
      constructor
      · intro ps rest hsz
        cases ps with
        | nil => simp [genParamList, parseParamList]
        | cons p ps =>
            cases p with
            | str s =>
                have h1 : plistSize ps < n := by
                  simp only [plistSize, psize] at hsz; omega
                simp [genParamList, genParam, parseParamList, ih.1 ps rest h1]
            | block ds =>
                have hd : dlistSize ds < n := by
                  simp only [plistSize, psize] at hsz; omega
                have h1 : plistSize ps < n := by
                  simp only [plistSize, psize] at hsz; omega
                have hshape :
                    genParamList (.block ds :: ps) ++ Tok.nl :: rest =
                      Tok.lbrace :: (genDirList ds ++ .rbrace ::
                        (genParamList ps ++ .nl :: rest)) := by
                  simp [genParamList, genParam]
                rw [hshape, parseParamList, ih.2 ds _ hd]
                dsimp only
                rw [ih.1 ps rest h1]
      · intro ds rest hsz
        cases ds with
        | nil => simp [genDirList, parseDirList]
        | cons d ds =>
            cases d with
            | mk nm ps =>
                have hp : plistSize ps < n := by
                  simp only [dlistSize, dsize] at hsz; omega
                have h1 : dlistSize ds < n := by
                  simp only [dlistSize, dsize] at hsz; omega
                have hshape :
                    genDirList (.mk nm ps :: ds) ++ Tok.rbrace :: rest =
                      Tok.word nm :: (genParamList ps ++ .nl ::
                        (genDirList ds ++ .rbrace :: rest)) := by
                  simp [genDirList, genDirective]
                rw [hshape, parseDirList, ih.1 ps _ hp]
                dsimp only
                rw [ih.2 ds rest h1]

theorem parse_gen_zones (d : Dialect) :
    ∀ (n : Nat) (zs : List Zone), zlistSize zs < n →
      parseZones d n (genZoneList d zs) = .ok zs := by
  intro n
  induction n with
  | zero => intro zs h; exact absurd h (Nat.not_lt_zero _)
  | succ n ih =>
      intro zs hsz
      cases zs with
      | nil => simp [genZoneList, parseZones]
      | cons z zs =>
          have hd : dlistSize z.directives < n := by
            simp only [zlistSize, zsize] at hsz; omega
          have h1 : zlistSize zs < n := by
            simp only [zlistSize, zsize] at hsz; omega
          have hshape : genZoneList d (z :: zs) =
              Tok.word (zoneKeyword d) :: .word z.name ::
                .word z.listen_spec :: .lbrace ::
                  (genDirList z.directives ++ .rbrace ::
                    (.nl :: genZoneList d zs)) := by
            simp [genZoneList, genZone]
          rw [hshape, parseZones, if_pos rfl,
            (parse_gen_lists n).2 z.directives _ hd]
          dsimp only
          rw [ih zs h1]

/-- C5: for every Configuration AST, parsing the output of the same
dialect's generator yields an AST structurally equal to the original —
token-level round-trip over canonical whitespace, with every directive
(including unrecognized ones, which both sides carry as opaque name plus
parameters) preserved verbatim rather than dropped. -/
theorem c5_parse_generate_round_trip (d : Dialect) (cfg : Config) :
    parseConfig d (genConfig d cfg) = .ok cfg := by
  have hsz := zlistSize_le_genZoneList_length d cfg.zones
  rw [parseConfig, genConfig,
    parse_gen_zones d ((genZoneList d cfg.zones).length + 1) cfg.zones
      (by omega)]
  rfl

/-- C6: the planner and generator are deterministic — two plan calls with
identical text and dialect pair produce identical target text, warnings
and steps, and generating twice from one AST produces byte-identical
text.  Both are pure functions of their inputs in this model, which is
exactly the spec's requirement that a re-plan is a fresh snapshot with no
hidden state. -/
theorem c6_plan_generate_deterministic :
    (∀ (src tgt : Dialect) (ts : List Tok) (p q : MigrationPlan),
        plan src tgt ts = .ok p → plan src tgt ts = .ok q →
        p.target_text = q.target_text ∧ p.warnings = q.warnings ∧
          p.steps = q.steps) ∧
    (∀ (d : Dialect) (cfg : Config) (t u : List Tok),
        genConfig d cfg = t → genConfig d cfg = u → t = u) := by
  constructor
  · intro src tgt ts p q hp hq
    rw [hp] at hq
    cases hq
    exact ⟨rfl, rfl, rfl⟩
  · intro d cfg t u ht hu
    rw [← ht, ← hu]

/-- Witness for C6 at the empty configuration. -/
theorem c6_plan_generate_deterministic_witness :
    (planFromAst .coredns .unbound ⟨[]⟩).target_text =
      (planFromAst .coredns .unbound ⟨[]⟩).target_text ∧
    (planFromAst .coredns .unbound ⟨[]⟩).warnings =
      (planFromAst .coredns .unbound ⟨[]⟩).warnings ∧
    (planFromAst .coredns .unbound ⟨[]⟩).steps =
      (planFromAst .coredns .unbound ⟨[]⟩).steps :=
  c6_plan_generate_deterministic.1 .coredns .unbound []
    (planFromAst .coredns .unbound ⟨[]⟩)
    (planFromAst .coredns .unbound ⟨[]⟩) rfl rfl

/-! ## Helper lemma: warning counts of the planner walk -/

theorem count_unsupported_warnings (src tgt : Dialect) (nm : String)
    (h : lookupMapping src tgt nm = none) :
    ∀ ds : List Directive,
      (ds.flatMap (directiveWarnings src tgt)).count (.unsupported nm) =
        (ds.map Directive.name).count nm := by
  intro ds
  induction ds with
  | nil => simp
  | cons d ds ih =>
      simp only [List.flatMap_cons, List.map_cons, List.count_append,
        List.count_cons, ih]
      by_cases hd : d.name = nm
      · rw [directiveWarnings, hd, h]
        simp only [List.count_cons, List.count_nil, Warning.unsupported.injEq]
        simp
        omega
      · have hz : (directiveWarnings src tgt d).count (.unsupported nm) = 0 := by
          rw [directiveWarnings]
          cases hl : lookupMapping src tgt d.name with
          | none => simp [List.count_cons, hd]
          | some e =>
              by_cases ha : e.automated <;> simp [ha]
        rw [hz]
        simp [hd]

/-- C7: a source directive with no Mapping Entry for the dialect pair is
never dropped silently — the Migration Plan's warnings contain exactly one
unsupported-directive entry naming it per occurrence, and every directive
of the emitted target AST (hence of the generated target text) is the
image of an automated Mapping Entry applied to some source directive, so
nothing is emitted for the unmapped one. -/
theorem c7_unmapped_directive_warned (src tgt : Dialect) (cfg : Config)
    (nm : String) (h : lookupMapping src tgt nm = none) :
    (planFromAst src tgt cfg).warnings.count (.unsupported nm) =
      ((allDirectives cfg).map Directive.name).count nm ∧
    (∀ d' ∈ allDirectives (planTargetAst src tgt cfg), ∃ d e,
        d ∈ allDirectives cfg ∧ lookupMapping src tgt d.name = some e ∧
        e.automated = true ∧
        d' = .mk (e.target_directive.getD d.name) (e.transform d.params)) ∧
    (planFromAst src tgt cfg).target_text =
      genConfig tgt (planTargetAst src tgt cfg) := by
  refine ⟨?_, ?_, rfl⟩
  · exact count_unsupported_warnings src tgt nm h (allDirectives cfg)
  · intro d' hd'
    rw [allDirectives, planTargetAst] at hd'
    simp only [List.mem_flatMap, List.mem_map] at hd'
    obtain ⟨z', ⟨z, hz, rfl⟩, hd'⟩ := hd'
    simp only [planZone, List.mem_filterMap] at hd'
    obtain ⟨d, hdz, hmap⟩ := hd'
    cases hl : lookupMapping src tgt d.name with
    | none => simp [mapDirective, hl] at hmap
    | some e =>
        by_cases ha : e.automated = true
        · refine ⟨d, e, ?_, hl, ha, ?_⟩
          · rw [allDirectives]
            exact List.mem_flatMap.mpr ⟨z, hz, hdz⟩
          · simp only [mapDirective, hl, if_pos ha,
              Option.some.injEq] at hmap
            exact hmap.symm
        · simp [mapDirective, hl, ha] at hmap

/-- Witness for C7: the cluster-discovery directive of the example
configuration, which has no coredns-to-unbound Mapping Entry, is warned
about exactly once and nothing is emitted for it. -/
theorem c7_unmapped_directive_warned_witness :
    ((allDirectives exampleUnmappedConfig).map Directive.name).count
        "cluster-discovery" = 1 ∧
    (planFromAst .coredns .unbound exampleUnmappedConfig).warnings.count
        (.unsupported "cluster-discovery") =
      ((allDirectives exampleUnmappedConfig).map Directive.name).count
        "cluster-discovery" :=
  ⟨by decide,
    (c7_unmapped_directive_warned .coredns .unbound exampleUnmappedConfig
      "cluster-discovery" rfl).1⟩

/-- C8: a parse failure yields a SyntaxError and no AST at all, a failing
parse aborts the Migration Plan call entirely with the same error (no
partial Plan), and bulk aggregation is total — every comparison's outcome
is folded into the counts independently, so a bulk run is never aborted by
a comparison failure. -/
theorem c8_failure_propagation :
    (∀ (src tgt : Dialect) (ts : List Tok) (e : SyntaxError),
        parseConfig src ts = .error e → plan src tgt ts = .error e) ∧
    parseConfig .coredns [Tok.rbrace] =
      .error (.unexpectedToken Tok.rbrace) ∧
    (∀ cs : List ComparisonResult,
        (aggregate cs).tested = cs.length ∧
        (aggregate cs).«matches» + (aggregate cs).mismatches =
          (aggregate cs).tested) := by
  refine ⟨?_, rfl, ?_⟩
  · intro src tgt ts e he
    simp [plan, he, Except.map]
  · intro cs
    refine ⟨aggregate_tested cs, ?_⟩
    rw [aggregate_tested, aggregate_match_count, aggregate_mismatch_count]
    exact countP_add_countP_not _ cs

/-- Witness for C8: the malformed single-token input aborts both the parse
and the enclosing plan call with the same SyntaxError. -/
theorem c8_failure_propagation_witness :
    plan .coredns .unbound [Tok.rbrace] =
      .error (.unexpectedToken Tok.rbrace) :=
  c8_failure_propagation.1 .coredns .unbound [Tok.rbrace]
    (.unexpectedToken Tok.rbrace) rfl

end DnsScience
